import Mathlib

/-!
Verification model of scripts/start_workspace.py (workspace-explorer).

The script supervises two child processes: a local code-server instance and a
cloudflared tunnel.  The definitions below are shallow embeddings of the parts
of the script that the verified properties concern: the endpoint regular
expression and output-scanning loop (lines 167-202), the post-ready forwarding
loop (lines 220-226), the readiness probe wait_for_port (lines 133-144), the
shutdown routine cleanup (lines 170-183), the exit-code structure of main, and
the credential generation call (line 77).

Time is modelled in tenths of a second so that every duration is a natural
number: the 15 s readiness timeout is 150, the 1 s connect timeout is 10, the
0.5 s polling sleep is 5, and the 3 s shutdown grace period is 30.
-/

namespace StartWorkspace

/-! ## Endpoint pattern (line 167)

The script compiles the regular expression
https://[a-zA-Z0-9-]+\.trycloudflare\.com and applies re.search to each line,
taking group(0) of the first (leftmost) match.  Because the character class
excludes the dot, the greedy plus never needs to backtrack: at a given start
position the pattern matches iff the literal https:// is present, a nonempty
maximal run of class characters follows, and the literal .trycloudflare.com
follows that run. -/

/-- Membership in the character class [a-zA-Z0-9-] of the endpoint pattern. -/
def isHostChar (c : Char) : Bool :=
  c.isAlpha || c.isDigit || c = '-'

/-- Attempt to match the endpoint pattern anchored at the start of the
character list, returning the matched characters (group 0). -/
def matchAt (cs : List Char) : Option (List Char) :=
  if cs.take 8 = "https://".toList then
    let rest := cs.drop 8
    let run := rest.takeWhile isHostChar
    let tail := rest.drop run.length
    if run.isEmpty then none
    else if tail.take 18 = ".trycloudflare.com".toList then
      some ("https://".toList ++ run ++ ".trycloudflare.com".toList)
    else none
  else none

/-- Leftmost search: try each start position from left to right, as
re.search does. -/
def searchAux : List Char → Option (List Char)
  | [] => none
  | c :: cs =>
    match matchAt (c :: cs) with
    | some m => some m
    | none => searchAux cs

/-- Model of url_pattern.search(line).group(0) from lines 167 and 199-201:
the leftmost occurrence of https://[a-zA-Z0-9-]+\.trycloudflare\.com in the
line, or none. -/
def url_pattern_search (s : String) : Option String :=
  (searchAux s.toList).map fun cs => String.mk cs

/-! ## Tunnel output scanning loop (lines 189-202)

Each iteration reads one line, writes it to the cloudflared log file and
flushes, then checks tunnel_proc.poll(), and only then tests the line against
the endpoint pattern.  The poll result at each iteration is part of the input:
a StreamLine records the text read and whether the tunnel process had already
exited when polled. -/

/-- One line read from the tunnel output stream, together with the result of
the tunnel_proc.poll() check performed right after logging it (true means the
process had exited). -/
structure StreamLine where
  text : String
  procExited : Bool
deriving DecidableEq

/-- Observable actions of one scanning iteration, in program order: the log
write (with flush), the process-exit check, and the pattern test. -/
inductive ScanEvent
  | write (l : String)
  | exitCheck (l : String)
  | testPattern (l : String)
deriving DecidableEq

/-- Outcome of the scanning loop: an endpoint URL was matched, the exit check
fired (the script prints a diagnostic and calls cleanup), or the stream ended
without a match (tunnel_url stays None and the script calls cleanup). -/
inductive ScanResult
  | url (u : String)
  | exitedEarly
  | eof
deriving DecidableEq

/-- State returned by the scanning loop: the events it performed, its
outcome, and the lines of the stream it left unread. -/
structure ScanState where
  events : List ScanEvent
  result : ScanResult
  rest : List StreamLine
deriving DecidableEq

/-- Shallow embedding of the loop at lines 190-202.  The iteration order is
write, flush, poll check, pattern test; a poll hit or a pattern match leaves
the remaining lines unread. -/
def scanLoop : List StreamLine → ScanState
  | [] => ⟨[], ScanResult.eof, []⟩
  | sl :: more =>
    if sl.procExited then
      ⟨[ScanEvent.write sl.text, ScanEvent.exitCheck sl.text], ScanResult.exitedEarly, more⟩
    else
      match url_pattern_search sl.text with
      | some u =>
        ⟨[ScanEvent.write sl.text, ScanEvent.exitCheck sl.text, ScanEvent.testPattern sl.text],
          ScanResult.url u, more⟩
      | none =>
        let s := scanLoop more
        ⟨[ScanEvent.write sl.text, ScanEvent.exitCheck sl.text, ScanEvent.testPattern sl.text]
            ++ s.events, s.result, s.rest⟩

/-- The lines written to the cloudflared log by a list of scan events. -/
def scanLogOf (evs : List ScanEvent) : List String :=
  evs.filterMap fun e =>
    match e with
    | ScanEvent.write l => some l
    | _ => none

/-- Shallow embedding of the post-ready forwarding loop at lines 220-226:
every line read before end-of-stream is written to the log. -/
def forwardLoop : List String → List String
  | [] => []
  | l :: rest => l :: forwardLoop rest

/-- Contents of the cloudflared log file produced by one session from the
tunnel stream: the scanning loop writes every line it reads, and when an
endpoint was matched the forwarding loop writes every remaining line. -/
def sessionTunnelLog (stream : List StreamLine) : List String :=
  match (scanLoop stream).result with
  | ScanResult.url _ =>
      scanLogOf (scanLoop stream).events
        ++ forwardLoop ((scanLoop stream).rest.map StreamLine.text)
  | _ => scanLogOf (scanLoop stream).events

/-- The lines of the tunnel stream actually read by the session: the prefix
consumed by the scanning loop, plus, when an endpoint was matched, every
remaining line (the forwarding loop reads until end-of-stream). -/
def sessionLinesRead (stream : List StreamLine) : List String :=
  match (scanLoop stream).result with
  | ScanResult.url _ => stream.map StreamLine.text
  | _ =>
      (stream.take (stream.length - (scanLoop stream).rest.length)).map StreamLine.text

/-- Reference reading of the scanner contract in the specification: the first
URL found in any line, lines tested in order. -/
def specFirstUrl : List String → Option String
  | [] => none
  | l :: rest =>
    match url_pattern_search l with
    | some u => some u
    | none => specFirstUrl rest

/-! ## Readiness probe wait_for_port (lines 133-144)

The loop checks the elapsed wall time against the 15 s timeout before each
connection attempt.  A connection attempt uses a 1 s connect timeout; on
socket.timeout or ConnectionRefusedError the loop consults
code_server_proc.poll() and, when the process is still running, sleeps 0.5 s
before the next attempt.  Any other exception is not caught.  The input is
the sequence of attempt outcomes the network would produce, each with its
duration in tenths of a second and the poll result observed in the except
branch. -/

/-- Readiness timeout of wait_for_port, in tenths of a second (timeout=15). -/
def TIMEOUT : Nat := 150

/-- Connect timeout of each socket.create_connection call, in tenths of a
second (timeout=1). -/
def CONNECT_TIMEOUT : Nat := 10

/-- Sleep between attempts, in tenths of a second (time.sleep(0.5)). -/
def POLL_SLEEP : Nat := 5

/-- Outcome of one socket.create_connection attempt.  success and refused
carry the time the attempt took; timedOut always takes the full connect
timeout; otherError stands for any exception outside the caught pair
(socket.timeout, ConnectionRefusedError), for example the OverflowError
raised for a port outside 0-65535. -/
inductive ConnectOutcome
  | success (d : Nat)
  | refused (d : Nat)
  | timedOut
  | otherError (d : Nat)
deriving DecidableEq

/-- Duration of a connection attempt in tenths of a second. -/
def attemptDuration : ConnectOutcome → Nat
  | ConnectOutcome.success d => d
  | ConnectOutcome.refused d => d
  | ConnectOutcome.timedOut => CONNECT_TIMEOUT
  | ConnectOutcome.otherError d => d

/-- One iteration of the probe as seen from outside: the connection outcome
and the code_server_proc.poll() result the except branch would observe
(true means the server process has exited). -/
structure PollAttempt where
  outcome : ConnectOutcome
  serverExited : Bool
deriving DecidableEq

/-- Result of wait_for_port together with the elapsed time, in tenths of a
second, at which control leaves the function. -/
inductive WaitResult
  | ready (t : Nat)
  | notReady (t : Nat)
  | uncaught (t : Nat)
deriving DecidableEq

/-- Elapsed time at which wait_for_port hands back control. -/
def waitResultTime : WaitResult → Nat
  | WaitResult.ready t => t
  | WaitResult.notReady t => t
  | WaitResult.uncaught t => t

/-- Shallow embedding of wait_for_port (lines 133-144).  The first argument
is the elapsed time; the loop condition compares it against TIMEOUT before
each attempt.  The attempt list is the oracle of connection outcomes; when it
is exhausted the loop can only stop, which is faithful whenever the list
covers at least the timeout window. -/
def wait_for_port : Nat → List PollAttempt → WaitResult
  | t, [] => WaitResult.notReady t
  | t, a :: rest =>
    if TIMEOUT ≤ t then WaitResult.notReady t
    else
      match a.outcome with
      | ConnectOutcome.success d => WaitResult.ready (t + d)
      | ConnectOutcome.otherError d => WaitResult.uncaught (t + d)
      | ConnectOutcome.refused d =>
        if a.serverExited then WaitResult.notReady (t + d)
        else wait_for_port (t + d + POLL_SLEEP) rest
      | ConnectOutcome.timedOut =>
        if a.serverExited then WaitResult.notReady (t + CONNECT_TIMEOUT)
        else wait_for_port (t + CONNECT_TIMEOUT + POLL_SLEEP) rest

/-- Actions of main around the readiness gate (lines 146-164): on a ready
port the tunnel process is spawned; on a failed probe the script prints the
diagnostic pointing at the code-server log, terminates the server process and
exits with status 1; an uncaught probe exception propagates out of main. -/
inductive MainAction
  | printServerFailDiag
  | terminateServer
  | exitOne
  | spawnTunnel
  | raiseUncaught
deriving DecidableEq

/-- What main does right after the readiness probe, as a function of the
probe input (lines 147-164). -/
def startupActions (attempts : List PollAttempt) : List MainAction :=
  match wait_for_port 0 attempts with
  | WaitResult.ready _ => [MainAction.spawnTunnel]
  | WaitResult.notReady _ =>
      [MainAction.printServerFailDiag, MainAction.terminateServer, MainAction.exitOne]
  | WaitResult.uncaught _ => [MainAction.raiseUncaught]

/-! ## Shutdown routine cleanup (lines 170-183)

cleanup terminates both child processes, waits up to 3 s for the tunnel and
then up to 3 s for the server, and on any exception from the waits (the bare
except catches the TimeoutExpired) kills both.  It then closes the two log
files and calls sys.exit(0).

Subprocess semantics modelled (CPython, Lib/subprocess.py): Popen.send_signal
first polls, reaping an exited child and recording its returncode, and sends
the signal only when the returncode is still unset, so terminate() and
kill() on a child that has already exited deliver no signal; Popen.wait on an
exited child returns immediately; file.close() on a closed file object is a
no-op.  A killed process is taken to be dead within KILL_DELAY. -/

/-- Shutdown grace period of each Popen.wait call, in tenths of a second
(timeout=3). -/
def GRACE : Nat := 30

/-- Small bound on the time between a SIGKILL and the process being gone, in
tenths of a second. -/
def KILL_DELAY : Nat := 1

/-- The two child processes, identified by role. -/
inductive ProcId
  | tunnel
  | server
deriving DecidableEq

/-- Behaviour of one child process as cleanup finds it: whether it had
already exited when cleanup was invoked, whether its returncode had already
been recorded in the Popen object, and how long after a SIGTERM it would
exit on its own (none means it ignores SIGTERM). -/
structure ChildBehavior where
  exitedBefore : Bool
  reaped : Bool
  termResponse : Option Nat
deriving DecidableEq

/-- Time after the start of cleanup at which the child is dead without being
killed: immediately if it had already exited, at its SIGTERM response time
otherwise, never if it ignores SIGTERM. -/
def effectiveExitTime (c : ChildBehavior) : Option Nat :=
  if c.exitedBefore then some 0 else c.termResponse

/-- Whether the child is dead (without a SIGKILL) by elapsed time t. -/
def deadBy (c : ChildBehavior) (t : Nat) : Bool :=
  match effectiveExitTime c with
  | some r => decide (r ≤ t)
  | none => false

/-- The state cleanup was invoked in: the two child behaviours and whether
each log file object is still open. -/
structure CleanupInput where
  tunnel : ChildBehavior
  server : ChildBehavior
  tunnelLogOpen : Bool
  serverLogOpen : Bool
deriving DecidableEq

/-- Observable actions of cleanup, in program order.  sigterm and sigkill are
recorded only when a signal is actually delivered (send_signal skips a child
whose returncode is set after the poll); closeLog only when the file object
was open (closing a closed file is a no-op). -/
inductive CleanupEvent
  | sigterm (p : ProcId)
  | waitReturn (p : ProcId)
  | waitTimeout (p : ProcId)
  | sigkill (p : ProcId)
  | closeLog (p : ProcId)
  | exitZero
deriving DecidableEq

/-- Result of one run of cleanup: its events, the elapsed time at which
sys.exit(0) runs, the elapsed time by which both children are dead, the
post-run child and log states, and the exit status it requests. -/
structure CleanupResult where
  events : List CleanupEvent
  duration : Nat
  allDeadBy : Nat
  tunnelAfter : ChildBehavior
  serverAfter : ChildBehavior
  tunnelLogOpenAfter : Bool
  serverLogOpenAfter : Bool
  exitCode : Nat
deriving DecidableEq

/-- Path of cleanup in which both waits return: tunnel dead at rt within
GRACE, server dead at rs within rt + GRACE. -/
def cleanupWaitWait (termEvs closeEvs : List CleanupEvent) (rt rs : Nat) : CleanupResult :=
  { events := termEvs ++ [CleanupEvent.waitReturn ProcId.tunnel,
        CleanupEvent.waitReturn ProcId.server] ++ closeEvs ++ [CleanupEvent.exitZero]
    duration := max rt rs
    allDeadBy := max rt rs
    tunnelAfter := ⟨true, true, none⟩
    serverAfter := ⟨true, true, none⟩
    tunnelLogOpenAfter := false
    serverLogOpenAfter := false
    exitCode := 0 }

/-- Path of cleanup in which the tunnel wait returns at rt but the server
wait raises TimeoutExpired at rt + GRACE: the bare except kills both, the
tunnel kill delivers no signal (its returncode is set), the server is
force-killed. -/
def cleanupServerTimeout (termEvs closeEvs : List CleanupEvent) (rt : Nat) : CleanupResult :=
  { events := termEvs ++ [CleanupEvent.waitReturn ProcId.tunnel,
        CleanupEvent.waitTimeout ProcId.server, CleanupEvent.sigkill ProcId.server]
        ++ closeEvs ++ [CleanupEvent.exitZero]
    duration := rt + GRACE
    allDeadBy := rt + GRACE + KILL_DELAY
    tunnelAfter := ⟨true, true, none⟩
    serverAfter := ⟨true, false, none⟩
    tunnelLogOpenAfter := false
    serverLogOpenAfter := false
    exitCode := 0 }

/-- Path of cleanup in which the tunnel wait raises TimeoutExpired at GRACE:
the bare except kills both; the server kill delivers a signal only when the
server is still alive at that moment. -/
def cleanupTunnelTimeout (termEvs closeEvs : List CleanupEvent) (serverDead : Bool) : CleanupResult :=
  { events := termEvs ++ [CleanupEvent.waitTimeout ProcId.tunnel,
        CleanupEvent.sigkill ProcId.tunnel]
        ++ (if serverDead then [] else [CleanupEvent.sigkill ProcId.server])
        ++ closeEvs ++ [CleanupEvent.exitZero]
    duration := GRACE
    allDeadBy := GRACE + KILL_DELAY
    tunnelAfter := ⟨true, false, none⟩
    serverAfter := if serverDead then ⟨true, true, none⟩ else ⟨true, false, none⟩
    tunnelLogOpenAfter := false
    serverLogOpenAfter := false
    exitCode := 0 }

/-- Shallow embedding of cleanup (lines 170-183).  terminate() delivers a
SIGTERM only to a child that has not already exited; the waits and the kill
escalation follow the try/except at lines 174-179; the close calls at lines
180-181 close the server log file first, then the tunnel log file; the
routine ends with sys.exit(0). -/
def cleanup (inp : CleanupInput) : CleanupResult :=
  let termEvs :=
    (if inp.tunnel.exitedBefore then [] else [CleanupEvent.sigterm ProcId.tunnel]) ++
    (if inp.server.exitedBefore then [] else [CleanupEvent.sigterm ProcId.server])
  let closeEvs :=
    (if inp.serverLogOpen then [CleanupEvent.closeLog ProcId.server] else []) ++
    (if inp.tunnelLogOpen then [CleanupEvent.closeLog ProcId.tunnel] else [])
  match effectiveExitTime inp.tunnel with
  | some rt =>
    if rt ≤ GRACE then
      match effectiveExitTime inp.server with
      | some rs =>
        if rs ≤ rt + GRACE then cleanupWaitWait termEvs closeEvs rt rs
        else cleanupServerTimeout termEvs closeEvs rt
      | none => cleanupServerTimeout termEvs closeEvs rt
    else cleanupTunnelTimeout termEvs closeEvs (deadBy inp.server GRACE)
  | none => cleanupTunnelTimeout termEvs closeEvs (deadBy inp.server GRACE)

/-- The cleanup input a later, second invocation of cleanup would observe:
the post-run child states and log-open flags of a first run. -/
def postCleanupInput (r : CleanupResult) : CleanupInput :=
  ⟨r.tunnelAfter, r.serverAfter, r.tunnelLogOpenAfter, r.serverLogOpenAfter⟩

/-! ## Signal handler installation (lines 185-186)

signal.signal(SIGINT, cleanup) and signal.signal(SIGTERM, cleanup) run after
the tunnel Popen at line 158 and before the scanning loop at line 190.
Before that point the default dispositions hold: SIGINT raises
KeyboardInterrupt (uncaught during the readiness wait), SIGTERM kills the
process; in neither case does the cleanup shutdown sequence run. -/

/-- Phases of one session run of main, in source order. -/
inductive Phase
  | argParse
  | provisioning
  | serverSpawn
  | readinessWait
  | tunnelSpawn
  | scanning
  | steadyForward
deriving DecidableEq, BEq

/-- Whether the custom SIGINT/SIGTERM handler is installed while the program
is in a given phase: the signal.signal calls at lines 185-186 sit after the
tunnel spawn and before the scanning loop. -/
def handlerInstalled : Phase → Bool
  | Phase.scanning => true
  | Phase.steadyForward => true
  | _ => false

/-- Phases at or after the server Popen at line 119. -/
def afterServerSpawn : Phase → Bool
  | Phase.readinessWait => true
  | Phase.tunnelSpawn => true
  | Phase.scanning => true
  | Phase.steadyForward => true
  | _ => false

/-- Whether an external interrupt arriving in a phase runs the cleanup
shutdown sequence: it does exactly when the custom handler is installed;
under the default dispositions the process dies without any shutdown
sequence. -/
def interruptRunsCleanup (ph : Phase) : Bool := handlerInstalled ph

/-! ## Exit status of main

Line 71: sys.exit(1) for a workspace path that is not a directory.
Line 151: sys.exit(1) when wait_for_port returns False.
cleanup always ends in sys.exit(0) (line 183), and it is what runs on a
tunnel failure (lines 194-196 and 229-232) as well as on an operator
interrupt, so every path past a successful readiness probe exits 0.  An
exception escaping the probe propagates out of main uncaught. -/

/-- How one program run ends: with an explicit exit status, or by an
uncaught exception unwinding out of main. -/
inductive ProgramExit
  | code (n : Nat)
  | uncaughtException
deriving DecidableEq

/-- The input determining the exit status of one session: the workspace
directory check, the readiness-probe attempts, and the tunnel output
stream. -/
structure SessionInput where
  workspaceIsDir : Bool
  attempts : List PollAttempt
  tunnelStream : List StreamLine
deriving DecidableEq

/-- Exit status of main as a function of the session input (lines 68-232).
In the url branch both the steady-state interrupt (handler cleanup, exit 0)
and a silent end of the tunnel stream (the forwarding loop breaks and main
returns) end the program with status 0. -/
def mainExit (s : SessionInput) : ProgramExit :=
  if s.workspaceIsDir then
    match wait_for_port 0 s.attempts with
    | WaitResult.ready _ =>
      match (scanLoop s.tunnelStream).result with
      | ScanResult.url _ => ProgramExit.code 0
      | ScanResult.exitedEarly => ProgramExit.code 0
      | ScanResult.eof => ProgramExit.code 0
    | WaitResult.notReady _ => ProgramExit.code 1
    | WaitResult.uncaught _ => ProgramExit.uncaughtException
  else ProgramExit.code 1

/-- Whether a session ends as a tunnel-establishment failure: the workspace
was valid, the server became ready, and the scan of the tunnel output ended
without an endpoint match (early process exit or end of stream). -/
def tunnelFailure (s : SessionInput) : Bool :=
  s.workspaceIsDir &&
  (match wait_for_port 0 s.attempts with
    | WaitResult.ready _ => true
    | _ => false) &&
  (match (scanLoop s.tunnelStream).result with
    | ScanResult.url _ => false
    | _ => true)

/-- Whether a session reaches the steady forwarding state: valid workspace,
ready server, matched endpoint. -/
def sessionReachesSteadyState (s : SessionInput) : Bool :=
  s.workspaceIsDir &&
  (match wait_for_port 0 s.attempts with
    | WaitResult.ready _ => true
    | _ => false) &&
  (match (scanLoop s.tunnelStream).result with
    | ScanResult.url _ => true
    | _ => false)

/-! ## Credential generation (line 77)

password = secrets.token_urlsafe(12) draws 12 random bytes and base64url
encodes them, one call per session run of main. -/

/-- Number of random bytes drawn for the session credential by
secrets.token_urlsafe(12) at line 77. -/
def password_entropy_bytes : Nat := 12

/-- Character length of secrets.token_urlsafe(n): base64url of n bytes
without padding. -/
def token_urlsafe_length (n : Nat) : Nat := (4 * n + 2) / 3

/-- The straight-line startup steps of main before the scanning loop, in
source order (lines 54-164). -/
inductive StartupStep
  | parseArgs
  | checkWorkspace
  | downloadBinaries
  | generatePassword
  | writeSettings
  | spawnServer
  | waitPort
  | spawnTunnel
deriving DecidableEq, BEq

/-- Source-order list of the startup steps of main; generatePassword is the
single secrets.token_urlsafe call of the script. -/
def mainStartupSteps : List StartupStep :=
  [StartupStep.parseArgs, StartupStep.checkWorkspace, StartupStep.downloadBinaries,
   StartupStep.generatePassword, StartupStep.writeSettings, StartupStep.spawnServer,
   StartupStep.waitPort, StartupStep.spawnTunnel]

/-! ## Helper lemmas about the scanning loop -/

/-- Ordering property of the scan events: in every prefix of the event list,
a line that has been tested against the pattern has already been written to
the log. -/
def writeBeforeTest (evs : List ScanEvent) : Prop :=
  ∀ n l, ScanEvent.testPattern l ∈ evs.take n → ScanEvent.write l ∈ evs.take n

theorem writeBeforeTest_append {a b : List ScanEvent}
    (ha : writeBeforeTest a) (hb : writeBeforeTest b) :
    writeBeforeTest (a ++ b) := by
  intro n l h
  rw [List.take_append_eq_append_take] at h ⊢
  rcases List.mem_append.mp h with h1 | h2
  · exact List.mem_append_left _ (ha n l h1)
  · exact List.mem_append_right _ (hb _ l h2)

theorem writeBeforeTest_block2 (l : String) :
    writeBeforeTest [ScanEvent.write l, ScanEvent.exitCheck l] := by
  intro n l' h
  have h2 := List.take_subset _ _ h
  simp at h2

theorem writeBeforeTest_block3 (l : String) :
    writeBeforeTest
      [ScanEvent.write l, ScanEvent.exitCheck l, ScanEvent.testPattern l] := by
  intro n l' h
  have hl : l' = l := by
    have h2 := List.take_subset _ _ h
    simpa using h2
  subst hl
  rcases n with _ | n
  · simp at h
  · simp [List.take_succ_cons]

theorem scanLogOf_append (a b : List ScanEvent) :
    scanLogOf (a ++ b) = scanLogOf a ++ scanLogOf b := by
  simp [scanLogOf]

theorem scanLogOf_nil : scanLogOf [] = [] := rfl

theorem scanLogOf_write (l : String) (evs : List ScanEvent) :
    scanLogOf (ScanEvent.write l :: evs) = l :: scanLogOf evs := by
  simp [scanLogOf]

theorem scanLogOf_exitCheck (l : String) (evs : List ScanEvent) :
    scanLogOf (ScanEvent.exitCheck l :: evs) = scanLogOf evs := by
  simp [scanLogOf]

theorem scanLogOf_testPattern (l : String) (evs : List ScanEvent) :
    scanLogOf (ScanEvent.testPattern l :: evs) = scanLogOf evs := by
  simp [scanLogOf]

theorem forwardLoop_eq (ls : List String) : forwardLoop ls = ls := by
  induction ls with
  | nil => rfl
  | cons l rest ih => simp [forwardLoop, ih]

/-- Scanning skips over a prefix of lines read while the process is alive
and no line matches: the outcome and leftover come from the rest of the
stream, and every skipped line is logged. -/
theorem scanLoop_skip (pre tail : List StreamLine)
    (h : ∀ x ∈ pre, x.procExited = false ∧ url_pattern_search x.text = none) :
    (scanLoop (pre ++ tail)).result = (scanLoop tail).result ∧
    (scanLoop (pre ++ tail)).rest = (scanLoop tail).rest ∧
    scanLogOf (scanLoop (pre ++ tail)).events
      = pre.map StreamLine.text ++ scanLogOf (scanLoop tail).events := by
  induction pre with
  | nil => simp
  | cons sl pre ih =>
    obtain ⟨h1, h2⟩ := h sl (List.mem_cons_self ..)
    obtain ⟨ih1, ih2, ih3⟩ := ih fun x hx => h x (List.mem_cons_of_mem _ hx)
    refine ⟨?_, ?_, ?_⟩ <;>
      simp [scanLoop, h1, h2, scanLogOf_append, ih1, ih2, ih3,
        scanLogOf_write, scanLogOf_exitCheck, scanLogOf_testPattern]

/-- The scanning loop consumes a prefix of the stream: its leftover is a
drop of the input and its log writes are exactly the consumed lines. -/
theorem scanLoop_split (stream : List StreamLine) :
    ∃ k, k ≤ stream.length ∧ (scanLoop stream).rest = stream.drop k ∧
      scanLogOf (scanLoop stream).events = (stream.take k).map StreamLine.text := by
  induction stream with
  | nil => exact ⟨0, by simp [scanLoop, scanLogOf]⟩
  | cons sl more ih =>
    by_cases h1 : sl.procExited
    · refine ⟨1, by simp, ?_, ?_⟩ <;>
        simp [scanLoop, h1, scanLogOf_write, scanLogOf_exitCheck, scanLogOf_nil]
    · cases h2 : url_pattern_search sl.text with
      | some u =>
        refine ⟨1, by simp, ?_, ?_⟩ <;>
          simp [scanLoop, eq_false_of_ne_true h1, h2, scanLogOf_write,
            scanLogOf_exitCheck, scanLogOf_testPattern, scanLogOf_nil]
      | none =>
        obtain ⟨k, hk, hr, hl⟩ := ih
        refine ⟨k + 1, by simpa using hk, ?_, ?_⟩ <;>
          simp [scanLoop, eq_false_of_ne_true h1, h2, hr, hl, scanLogOf_write,
            scanLogOf_exitCheck, scanLogOf_testPattern]

/-- Every event list of the scanning loop satisfies the write-before-test
ordering. -/
theorem scanLoop_writeBeforeTest (lines : List StreamLine) :
    writeBeforeTest (scanLoop lines).events := by
  induction lines with
  | nil =>
    intro n l h
    simp [scanLoop] at h
  | cons sl more ih =>
    by_cases h1 : sl.procExited
    · simpa [scanLoop, h1] using writeBeforeTest_block2 sl.text
    · cases h2 : url_pattern_search sl.text with
      | some u =>
        simpa [scanLoop, eq_false_of_ne_true h1, h2] using writeBeforeTest_block3 sl.text
      | none =>
        have hb := writeBeforeTest_append (writeBeforeTest_block3 sl.text) ih
        simpa [scanLoop, eq_false_of_ne_true h1, h2] using hb

/-! ## Claim theorems -/

/-- C5: the output scanner writes each consumed line to the log sink before
testing it against the endpoint pattern; when the tunnel process stays alive
it returns the first URL of the form https so-and-so trycloudflare com found
in any line, ignoring unrelated content in earlier lines and in the same
line, and it stops scanning after that first match, leaving the remaining
lines unread. -/
theorem scanner_first_match :
    (∀ lines : List StreamLine, writeBeforeTest (scanLoop lines).events) ∧
    (∀ (pre : List StreamLine) (sl : StreamLine) (tail : List StreamLine) (u : String),
      (∀ x ∈ pre, x.procExited = false ∧ url_pattern_search x.text = none) →
      sl.procExited = false → url_pattern_search sl.text = some u →
      (scanLoop (pre ++ sl :: tail)).result = ScanResult.url u ∧
      scanLogOf (scanLoop (pre ++ sl :: tail)).events
        = pre.map StreamLine.text ++ [sl.text] ∧
      (scanLoop (pre ++ sl :: tail)).rest = tail) ∧
    (∀ lines : List StreamLine,
      (∀ x ∈ lines, x.procExited = false ∧ url_pattern_search x.text = none) →
      (scanLoop lines).result = ScanResult.eof ∧
      scanLogOf (scanLoop lines).events = lines.map StreamLine.text) := by
  refine ⟨scanLoop_writeBeforeTest, ?_, ?_⟩
  · intro pre sl tail u hpre hsl hu
    obtain ⟨hres, hrest, hlog⟩ := scanLoop_skip pre (sl :: tail) hpre
    refine ⟨?_, ?_, ?_⟩
    · rw [hres]; simp [scanLoop, hsl, hu]
    · rw [hlog]
      simp [scanLoop, hsl, hu, scanLogOf_write, scanLogOf_exitCheck,
        scanLogOf_testPattern, scanLogOf_nil]
    · rw [hrest]; simp [scanLoop, hsl, hu]
  · intro lines hlines
    obtain ⟨hres, _, hlog⟩ := scanLoop_skip lines [] hlines
    rw [List.append_nil] at hres hlog
    refine ⟨by rw [hres]; rfl, ?_⟩
    rw [hlog]
    simp [scanLoop, scanLogOf_nil]

/-- Concrete stream for the C5 witness: an unrelated line, then a line whose
middle carries the endpoint URL, then a further line that is never read. -/
def scannerWitnessStream : List StreamLine :=
  [⟨"unrelated line", false⟩,
   ⟨"INF https://abc123.trycloudflare.com ready", false⟩,
   ⟨"later line", false⟩]

/-- Witness for C5: on the concrete stream the scanner returns exactly the
embedded URL, logs both consumed lines, and leaves the third line unread. -/
theorem scanner_first_match_witness :
    (scanLoop scannerWitnessStream).result
      = ScanResult.url "https://abc123.trycloudflare.com" ∧
    scanLogOf (scanLoop scannerWitnessStream).events
      = ["unrelated line", "INF https://abc123.trycloudflare.com ready"] ∧
    (scanLoop scannerWitnessStream).rest = [⟨"later line", false⟩] := by
  have h := scanner_first_match.2.1 [⟨"unrelated line", false⟩]
    ⟨"INF https://abc123.trycloudflare.com ready", false⟩ [⟨"later line", false⟩]
    "https://abc123.trycloudflare.com" (by decide) (by decide) (by decide)
  exact ⟨h.1, h.2.1, h.2.2⟩

/-- C6: every line read from the tunnel output stream, during scanning and
during the post-ready forwarding loop alike, appears exactly once and in
order in the tunnel log, whatever the scan outcome: the produced log equals
the list of lines read. -/
theorem tunnel_log_exact :
    ∀ stream : List StreamLine, sessionTunnelLog stream = sessionLinesRead stream := by
  intro stream
  obtain ⟨k, hk, hr, hl⟩ := scanLoop_split stream
  have hlen : stream.length - (scanLoop stream).rest.length = k := by
    rw [hr]; simp [List.length_drop]; omega
  unfold sessionTunnelLog sessionLinesRead
  cases hres : (scanLoop stream).result with
  | url u =>
    rw [hl, hr, forwardLoop_eq, ← List.map_append, List.take_append_drop]
  | exitedEarly => rw [hl, hlen]
  | eof => rw [hl, hlen]

/-- A probe trace whose single attempt connects at once: used to place the
exit-check theorem inside a full session. -/
def readyProbe : List PollAttempt := [⟨ConnectOutcome.success 0, false⟩]

/-- C9: in the scanning loop the process-exit check runs after the log write
and before the pattern test, so a line read after the tunnel process has
exited is logged but its URL is never matched: the scan consumes it, ends as
an early tunnel exit, and the session shuts down as a tunnel failure. -/
theorem scan_exit_check_precedes_match :
    ∀ (pre : List StreamLine) (t : String) (tail : List StreamLine) (u : String),
      (∀ x ∈ pre, x.procExited = false ∧ url_pattern_search x.text = none) →
      url_pattern_search t = some u →
      (scanLoop (pre ++ ⟨t, true⟩ :: tail)).result = ScanResult.exitedEarly ∧
      scanLogOf (scanLoop (pre ++ ⟨t, true⟩ :: tail)).events
        = pre.map StreamLine.text ++ [t] ∧
      tunnelFailure ⟨true, readyProbe, pre ++ ⟨t, true⟩ :: tail⟩ = true ∧
      mainExit ⟨true, readyProbe, pre ++ ⟨t, true⟩ :: tail⟩ = ProgramExit.code 0 := by
  intro pre t tail u hpre hu
  obtain ⟨hres, hrest, hlog⟩ := scanLoop_skip pre (⟨t, true⟩ :: tail) hpre
  have hstep : (scanLoop ((⟨t, true⟩ : StreamLine) :: tail)).result
      = ScanResult.exitedEarly := by
    simp [scanLoop]
  have hres2 : (scanLoop (pre ++ ⟨t, true⟩ :: tail)).result = ScanResult.exitedEarly := by
    rw [hres, hstep]
  refine ⟨hres2, ?_, ?_, ?_⟩
  · rw [hlog]
    simp [scanLoop, scanLogOf_write, scanLogOf_exitCheck, scanLogOf_nil]
  · simp [tunnelFailure, readyProbe, wait_for_port, attemptDuration, TIMEOUT, hres2]
  · simp [mainExit, readyProbe, wait_for_port, attemptDuration, TIMEOUT, hres2]

/-- Witness for C9: a line carrying a fresh endpoint URL but read after the
tunnel process exited is persisted to the log, yet the scan ends as an early
exit and the program leaves with status 0. -/
theorem scan_exit_check_precedes_match_witness :
    (scanLoop [⟨"https://xyz9.trycloudflare.com", true⟩]).result
      = ScanResult.exitedEarly ∧
    scanLogOf (scanLoop [⟨"https://xyz9.trycloudflare.com", true⟩]).events
      = ["https://xyz9.trycloudflare.com"] ∧
    tunnelFailure ⟨true, readyProbe, [⟨"https://xyz9.trycloudflare.com", true⟩]⟩ = true ∧
    mainExit ⟨true, readyProbe, [⟨"https://xyz9.trycloudflare.com", true⟩]⟩
      = ProgramExit.code 0 := by
  have h := scan_exit_check_precedes_match [] "https://xyz9.trycloudflare.com" []
    "https://xyz9.trycloudflare.com" (by decide) (by decide)
  exact ⟨h.1, h.2.1, h.2.2.1, h.2.2.2⟩

/-! ## Readiness probe lemmas and theorems (C4, C10) -/

/-- Whether a connection attempt succeeded. -/
def isSuccess : ConnectOutcome → Bool
  | ConnectOutcome.success _ => true
  | _ => false

/-- A ready result of the probe requires a successful connection attempt in
the trace. -/
theorem wait_for_port_ready_any_success (attempts : List PollAttempt) :
    ∀ t t2, wait_for_port t attempts = WaitResult.ready t2 →
      attempts.any (fun a => isSuccess a.outcome) = true := by
  induction attempts with
  | nil => intro t t2 h; simp [wait_for_port] at h
  | cons a rest ih =>
    intro t t2 h
    by_cases hnt : TIMEOUT ≤ t
    · simp [wait_for_port, hnt] at h
    · cases ho : a.outcome with
      | success d => simp [List.any_cons, isSuccess, ho]
      | otherError d => simp [wait_for_port, hnt, ho] at h
      | refused d =>
        by_cases hse : a.serverExited = true
        · simp [wait_for_port, hnt, ho, hse] at h
        · simp [wait_for_port, hnt, ho, hse] at h
          have hr := ih _ _ h
          simp [List.any_cons, hr]
      | timedOut =>
        by_cases hse : a.serverExited = true
        · simp [wait_for_port, hnt, ho, hse] at h
        · simp [wait_for_port, hnt, ho, hse] at h
          have hr := ih _ _ h
          simp [List.any_cons, hr]

/-- The probe hands back control no later than the timeout plus one connect
timeout plus one polling sleep, whenever every attempt respects the connect
timeout. -/
theorem wait_for_port_time_bound (attempts : List PollAttempt) :
    ∀ t : Nat, (∀ a ∈ attempts, attemptDuration a.outcome ≤ CONNECT_TIMEOUT) →
      t ≤ TIMEOUT + CONNECT_TIMEOUT + POLL_SLEEP →
      waitResultTime (wait_for_port t attempts)
        ≤ TIMEOUT + CONNECT_TIMEOUT + POLL_SLEEP := by
  induction attempts with
  | nil => intro t _ ht; simpa [wait_for_port, waitResultTime] using ht
  | cons a rest ih =>
    intro t hd ht
    have ha : attemptDuration a.outcome ≤ CONNECT_TIMEOUT :=
      hd a (List.mem_cons_self ..)
    have hrest : ∀ x ∈ rest, attemptDuration x.outcome ≤ CONNECT_TIMEOUT :=
      fun x hx => hd x (List.mem_cons_of_mem _ hx)
    by_cases hnt : TIMEOUT ≤ t
    · simpa [wait_for_port, hnt, waitResultTime] using ht
    · have hlt : t < TIMEOUT := Nat.lt_of_not_le hnt
      cases ho : a.outcome with
      | success d =>
        rw [ho] at ha
        simp only [attemptDuration] at ha
        simp only [wait_for_port, hnt, ho, if_false, waitResultTime]
        simp only [TIMEOUT, CONNECT_TIMEOUT, POLL_SLEEP] at ha hlt ⊢
        omega
      | otherError d =>
        rw [ho] at ha
        simp only [attemptDuration] at ha
        simp only [wait_for_port, hnt, ho, if_false, waitResultTime]
        simp only [TIMEOUT, CONNECT_TIMEOUT, POLL_SLEEP] at ha hlt ⊢
        omega
      | refused d =>
        rw [ho] at ha
        simp only [attemptDuration] at ha
        by_cases hse : a.serverExited = true
        · simp only [wait_for_port, hnt, ho, hse, if_false, if_true, waitResultTime]
          simp only [TIMEOUT, CONNECT_TIMEOUT, POLL_SLEEP] at ha hlt ⊢
          omega
        · simp only [wait_for_port, hnt, ho, hse, if_false, waitResultTime]
          refine ih _ hrest ?_
          simp only [TIMEOUT, CONNECT_TIMEOUT, POLL_SLEEP] at ha hlt ⊢
          omega
      | timedOut =>
        by_cases hse : a.serverExited = true
        · simp only [wait_for_port, hnt, ho, hse, if_false, if_true, waitResultTime]
          simp only [TIMEOUT, CONNECT_TIMEOUT, POLL_SLEEP] at hlt ⊢
          omega
        · simp only [wait_for_port, hnt, ho, hse, if_false, waitResultTime]
          refine ih _ hrest ?_
          simp only [TIMEOUT, CONNECT_TIMEOUT, POLL_SLEEP] at hlt ⊢
          omega

/-- Trace refuting the reporting bound of C4: twenty-nine instant refusals
bring the clock to 14.5 s, the next attempt spends the full 1 s connect
timeout and is followed by the 0.5 s sleep, so the failure is reported at
16.0 s, one and a half seconds past the timeout and a full second past
timeout plus one polling interval. -/
def readinessCexTrace : List PollAttempt :=
  List.replicate 29 ⟨ConnectOutcome.refused 0, false⟩
    ++ [⟨ConnectOutcome.timedOut, false⟩]

/-- Counterexample to C4 as stated: on a physically valid trace (every
attempt within the connect timeout) the probe reports failure at time 160,
which exceeds the claimed bound of timeout plus one polling interval
(150 + 5). -/
theorem readiness_report_bound_cex :
    wait_for_port 0 readinessCexTrace = WaitResult.notReady 160 ∧
    readinessCexTrace.all
      (fun a => decide (attemptDuration a.outcome ≤ CONNECT_TIMEOUT)) = true ∧
    decide (160 ≤ TIMEOUT + POLL_SLEEP) = false := by
  refine ⟨by decide, by decide, by decide⟩

/-- C4 amended: the tunnel process is spawned only when a connection attempt
succeeded; a failed probe makes main print the diagnostic, terminate the
server and exit 1 without spawning the tunnel; and the probe hands back
control within the timeout plus one connect timeout plus one polling
interval (not within one polling interval alone). -/
theorem readiness_gate_amended :
    ∀ attempts : List PollAttempt,
      (startupActions attempts = [MainAction.spawnTunnel] →
        attempts.any (fun a => isSuccess a.outcome) = true) ∧
      ((∀ a ∈ attempts, attemptDuration a.outcome ≤ CONNECT_TIMEOUT) →
        waitResultTime (wait_for_port 0 attempts)
          ≤ TIMEOUT + CONNECT_TIMEOUT + POLL_SLEEP) ∧
      (∀ t, wait_for_port 0 attempts = WaitResult.notReady t →
        startupActions attempts
          = [MainAction.printServerFailDiag, MainAction.terminateServer,
             MainAction.exitOne]) := by
  intro attempts
  refine ⟨?_, fun hd => wait_for_port_time_bound attempts 0 hd (by simp), ?_⟩
  · intro hact
    unfold startupActions at hact
    cases hw : wait_for_port 0 attempts with
    | ready t2 => exact wait_for_port_ready_any_success attempts 0 t2 hw
    | notReady t2 => rw [hw] at hact; simp at hact
    | uncaught t2 => rw [hw] at hact; simp at hact
  · intro t hw
    unfold startupActions
    rw [hw]

/-- Witness for C4 amended: a trace that connects on the second attempt
spawns the tunnel within the bound, and an all-timeout trace takes the
failure branch. -/
theorem readiness_gate_amended_witness :
    (List.replicate 40 (⟨ConnectOutcome.timedOut, false⟩ : PollAttempt)).any
        (fun a => isSuccess a.outcome) = false ∧
    startupActions (List.replicate 40 ⟨ConnectOutcome.timedOut, false⟩)
      = [MainAction.printServerFailDiag, MainAction.terminateServer,
         MainAction.exitOne] ∧
    [(⟨ConnectOutcome.refused 0, false⟩ : PollAttempt),
     ⟨ConnectOutcome.success 3, false⟩].any (fun a => isSuccess a.outcome) = true ∧
    waitResultTime
        (wait_for_port 0 [⟨ConnectOutcome.refused 0, false⟩,
          ⟨ConnectOutcome.success 3, false⟩])
      ≤ TIMEOUT + CONNECT_TIMEOUT + POLL_SLEEP := by
  obtain ⟨h1, h2, _⟩ := readiness_gate_amended
    [⟨ConnectOutcome.refused 0, false⟩, ⟨ConnectOutcome.success 3, false⟩]
  obtain ⟨_, _, h3⟩ := readiness_gate_amended
    (List.replicate 40 ⟨ConnectOutcome.timedOut, false⟩)
  exact ⟨by decide, h3 150 (by decide), h1 (by decide), h2 (by decide)⟩

/-- C10: the probe catches only socket.timeout and ConnectionRefusedError;
any other exception from the connection attempt, such as the overflow raised
for a port outside 0 to 65535, escapes wait_for_port on the spot, and main
then neither prints the server-failure diagnostic nor terminates the spawned
server process nor spawns the tunnel: the program dies on the uncaught
exception. -/
theorem wait_for_port_uncaught_propagates :
    ∀ (d : Nat) (b : Bool) (rest : List PollAttempt) (stream : List StreamLine),
      wait_for_port 0 (⟨ConnectOutcome.otherError d, b⟩ :: rest)
        = WaitResult.uncaught d ∧
      startupActions (⟨ConnectOutcome.otherError d, b⟩ :: rest)
        = [MainAction.raiseUncaught] ∧
      mainExit ⟨true, ⟨ConnectOutcome.otherError d, b⟩ :: rest, stream⟩
        = ProgramExit.uncaughtException := by
  intro d b rest stream
  have h : wait_for_port 0 (⟨ConnectOutcome.otherError d, b⟩ :: rest)
      = WaitResult.uncaught d := by
    simp [wait_for_port, attemptDuration, TIMEOUT]
  exact ⟨h, by simp [startupActions, h], by simp [mainExit, h]⟩

/-! ## Shutdown theorems (C3, C7) -/

/-- After any run of cleanup both children have exited with no pending
SIGTERM response and both log files are closed. -/
theorem cleanup_final_state (inp : CleanupInput) :
    (cleanup inp).tunnelAfter.exitedBefore = true ∧
    (cleanup inp).tunnelAfter.termResponse = none ∧
    (cleanup inp).serverAfter.exitedBefore = true ∧
    (cleanup inp).serverAfter.termResponse = none ∧
    (cleanup inp).tunnelLogOpenAfter = false ∧
    (cleanup inp).serverLogOpenAfter = false := by
  unfold cleanup
  repeat' split
  all_goals
    simp [cleanupWaitWait, cleanupServerTimeout, cleanupTunnelTimeout]
  all_goals
    split <;> simp

/-- Running cleanup on a state in which both children have already exited
and both log files are closed performs no signalling and no closing: both
waits return at once and the run ends in sys.exit(0). -/
theorem cleanup_on_terminated (b1 b2 : Bool) :
    cleanup ⟨⟨true, b1, none⟩, ⟨true, b2, none⟩, false, false⟩
      = cleanupWaitWait [] [] 0 0 := rfl

/-- C3: invoking the shutdown sequence a second time, in the state the first
invocation leaves behind, raises nothing (the run is total and again reaches
sys.exit(0)), delivers no termination signal to the already terminated
children (no sigterm and no sigkill events), and does not close the log
handles again (no closeLog events): its whole event list is the two
immediate wait returns and the exit. -/
theorem cleanup_idempotent :
    ∀ inp : CleanupInput,
      (cleanup (postCleanupInput (cleanup inp))).events
        = [CleanupEvent.waitReturn ProcId.tunnel, CleanupEvent.waitReturn ProcId.server,
           CleanupEvent.exitZero] ∧
      (cleanup (postCleanupInput (cleanup inp))).exitCode = 0 ∧
      (cleanup (postCleanupInput (cleanup inp))).duration = 0 := by
  intro inp
  obtain ⟨h1, h2, h3, h4, h5, h6⟩ := cleanup_final_state inp
  rcases hc1 : (cleanup inp).tunnelAfter with ⟨e1, r1, tr1⟩
  rcases hc2 : (cleanup inp).serverAfter with ⟨e2, r2, tr2⟩
  rw [hc1] at h1 h2
  rw [hc2] at h3 h4
  simp only at h1 h2 h3 h4
  subst h1 h2 h3 h4
  have hpost : postCleanupInput (cleanup inp)
      = ⟨⟨true, r1, none⟩, ⟨true, r2, none⟩, false, false⟩ := by
    unfold postCleanupInput
    rw [hc1, hc2, h5, h6]
  rw [hpost, cleanup_on_terminated]
  exact ⟨rfl, rfl, rfl⟩

/-- Input refuting the timing bound of C7: the tunnel obeys SIGTERM after
2.9 s, the server ignores it, so the server wait times out at 5.9 s and the
forced kill lands both children only at 6.0 s, twice the grace period. -/
def cleanupCexInput : CleanupInput :=
  ⟨⟨false, false, some 29⟩, ⟨false, false, none⟩, true, true⟩

/-- Counterexample to C7 as stated: the terminated state is reached at time
60 (tenths of a second), beyond the grace period plus any small delay (even
granting a full extra second). -/
theorem cleanup_duration_cex :
    (cleanup cleanupCexInput).allDeadBy = 60 ∧
    decide ((cleanup cleanupCexInput).allDeadBy ≤ GRACE + 10) = false := by
  refine ⟨rfl, by decide⟩

theorem cleanup_allDeadBy_le (inp : CleanupInput) :
    (cleanup inp).allDeadBy ≤ 2 * GRACE + KILL_DELAY := by
  unfold cleanup
  repeat' split
  all_goals
    simp only [cleanupWaitWait, cleanupServerTimeout, cleanupTunnelTimeout,
      GRACE, KILL_DELAY] at *
  all_goals omega

theorem cleanup_duration_le (inp : CleanupInput) :
    (cleanup inp).duration ≤ 2 * GRACE := by
  unfold cleanup
  repeat' split
  all_goals
    simp only [cleanupWaitWait, cleanupServerTimeout, cleanupTunnelTimeout,
      GRACE, KILL_DELAY] at *
  all_goals omega

theorem cleanup_exitCode_zero (inp : CleanupInput) :
    (cleanup inp).exitCode = 0 := by
  unfold cleanup
  repeat' split
  all_goals rfl

theorem cleanup_sigterm_tunnel (inp : CleanupInput)
    (hf : inp.tunnel.exitedBefore = false) :
    CleanupEvent.sigterm ProcId.tunnel ∈ (cleanup inp).events := by
  unfold cleanup
  repeat' split
  all_goals
    simp_all [cleanupWaitWait, cleanupServerTimeout, cleanupTunnelTimeout]

theorem cleanup_sigterm_server (inp : CleanupInput)
    (hf : inp.server.exitedBefore = false) :
    CleanupEvent.sigterm ProcId.server ∈ (cleanup inp).events := by
  unfold cleanup
  repeat' split
  all_goals
    simp_all [cleanupWaitWait, cleanupServerTimeout, cleanupTunnelTimeout]

/-- C7 amended: cleanup sends a graceful termination request to every child
that has not already exited, waits up to the 3 s grace period for the tunnel
and then up to 3 s for the server, escalates to a forced kill on a wait
timeout, and always reaches the terminated state within the sum of the two
grace periods plus a small kill delay (6.1 s), never hanging: both children
are gone, both logs closed, and the run ends in sys.exit(0). -/
theorem cleanup_bounded_termination :
    ∀ inp : CleanupInput,
      (cleanup inp).allDeadBy ≤ 2 * GRACE + KILL_DELAY ∧
      (cleanup inp).duration ≤ 2 * GRACE ∧
      (cleanup inp).tunnelAfter.exitedBefore = true ∧
      (cleanup inp).serverAfter.exitedBefore = true ∧
      (cleanup inp).tunnelLogOpenAfter = false ∧
      (cleanup inp).serverLogOpenAfter = false ∧
      (cleanup inp).exitCode = 0 ∧
      (inp.tunnel.exitedBefore = false →
        CleanupEvent.sigterm ProcId.tunnel ∈ (cleanup inp).events) ∧
      (inp.server.exitedBefore = false →
        CleanupEvent.sigterm ProcId.server ∈ (cleanup inp).events) := by
  intro inp
  obtain ⟨h1, _, h3, _, h5, h6⟩ := cleanup_final_state inp
  exact ⟨cleanup_allDeadBy_le inp, cleanup_duration_le inp, h1, h3, h5, h6,
    cleanup_exitCode_zero inp, fun hf => cleanup_sigterm_tunnel inp hf,
    fun hf => cleanup_sigterm_server inp hf⟩

/-- Witness for C7 amended: a session whose children obey SIGTERM within
0.5 s and 0.7 s is terminated within the bound and both graceful requests
are delivered. -/
theorem cleanup_bounded_termination_witness :
    (cleanup ⟨⟨false, false, some 5⟩, ⟨false, false, some 7⟩, true, true⟩).allDeadBy
      ≤ 2 * GRACE + KILL_DELAY ∧
    CleanupEvent.sigterm ProcId.tunnel
      ∈ (cleanup ⟨⟨false, false, some 5⟩, ⟨false, false, some 7⟩, true, true⟩).events ∧
    CleanupEvent.sigterm ProcId.server
      ∈ (cleanup ⟨⟨false, false, some 5⟩, ⟨false, false, some 7⟩, true, true⟩).events := by
  obtain ⟨b1, _, _, _, _, _, _, b8, b9⟩ := cleanup_bounded_termination
    ⟨⟨false, false, some 5⟩, ⟨false, false, some 7⟩, true, true⟩
  exact ⟨b1, b8 rfl, b9 rfl⟩

/-! ## Exit status, interrupt phases and credential theorems (C1, C2, C8) -/

/-- Session on which the tunnel produces no endpoint: valid workspace, server
ready at once, empty tunnel output stream. -/
def sessionCexTunnelFail : SessionInput :=
  ⟨true, [⟨ConnectOutcome.success 0, false⟩], []⟩

/-- Counterexample to C1 as stated: a session whose tunnel fails to produce
an endpoint exits with status 0, not 1, because the failure path runs
cleanup, which ends in sys.exit(0); thus status 0 is not reserved for clean
operator-initiated shutdowns. -/
theorem exit_code_tunnel_failure_cex :
    tunnelFailure sessionCexTunnelFail = true ∧
    mainExit sessionCexTunnelFail = ProgramExit.code 0 ∧
    decide (mainExit sessionCexTunnelFail = ProgramExit.code 1) = false := by
  refine ⟨by decide, by decide, by decide⟩

/-- C1 amended: the exit status is 1 exactly on an invalid workspace path or
a failed readiness probe; a tunnel-establishment failure also exits 0, as
does a steady-state session, because cleanup always calls sys.exit(0); an
exception escaping the readiness probe ends the program with an uncaught
exception instead. -/
theorem exit_code_amended :
    ∀ s : SessionInput,
      (s.workspaceIsDir = false → mainExit s = ProgramExit.code 1) ∧
      (∀ t, s.workspaceIsDir = true →
        wait_for_port 0 s.attempts = WaitResult.notReady t →
        mainExit s = ProgramExit.code 1) ∧
      (tunnelFailure s = true → mainExit s = ProgramExit.code 0) ∧
      (sessionReachesSteadyState s = true → mainExit s = ProgramExit.code 0) ∧
      (∀ t, s.workspaceIsDir = true →
        wait_for_port 0 s.attempts = WaitResult.uncaught t →
        mainExit s = ProgramExit.uncaughtException) := by
  intro s
  refine ⟨?_, ?_, ?_, ?_, ?_⟩
  · intro hw
    simp [mainExit, hw]
  · intro t hw hnr
    simp [mainExit, hw, hnr]
  · intro hf
    rw [tunnelFailure] at hf
    simp only [Bool.and_eq_true] at hf
    obtain ⟨⟨hw, hr⟩, hscan⟩ := hf
    cases hwp : wait_for_port 0 s.attempts with
    | ready t =>
      cases hres : (scanLoop s.tunnelStream).result with
      | url u => rw [hres] at hscan; simp at hscan
      | exitedEarly => simp [mainExit, hw, hwp, hres]
      | eof => simp [mainExit, hw, hwp, hres]
    | notReady t => rw [hwp] at hr; simp at hr
    | uncaught t => rw [hwp] at hr; simp at hr
  · intro hf
    rw [sessionReachesSteadyState] at hf
    simp only [Bool.and_eq_true] at hf
    obtain ⟨⟨hw, hr⟩, hscan⟩ := hf
    cases hwp : wait_for_port 0 s.attempts with
    | ready t =>
      cases hres : (scanLoop s.tunnelStream).result with
      | url u => simp [mainExit, hw, hwp, hres]
      | exitedEarly => rw [hres] at hscan; simp at hscan
      | eof => rw [hres] at hscan; simp at hscan
    | notReady t => rw [hwp] at hr; simp at hr
    | uncaught t => rw [hwp] at hr; simp at hr
  · intro t hw hu
    simp [mainExit, hw, hu]

/-- Witness for C1 amended: the four exits at concrete sessions, obtained by
applying the amended theorem. -/
theorem exit_code_amended_witness :
    mainExit ⟨false, [], []⟩ = ProgramExit.code 1 ∧
    mainExit ⟨true, [], []⟩ = ProgramExit.code 1 ∧
    mainExit ⟨true, [⟨ConnectOutcome.success 0, false⟩],
        [⟨"ok https://w1.trycloudflare.com", false⟩]⟩ = ProgramExit.code 0 ∧
    mainExit ⟨true, [⟨ConnectOutcome.otherError 2, false⟩], []⟩
      = ProgramExit.uncaughtException := by
  refine ⟨(exit_code_amended ⟨false, [], []⟩).1 rfl,
    (exit_code_amended ⟨true, [], []⟩).2.1 0 rfl (by decide),
    (exit_code_amended _).2.2.2.1 (by decide),
    (exit_code_amended ⟨true, [⟨ConnectOutcome.otherError 2, false⟩], []⟩).2.2.2.2 2
      rfl (by decide)⟩

/-- Counterexample to C2 as stated: the readiness wait lies after the server
spawn, yet an interrupt arriving there does not run the shutdown sequence,
because the signal handlers are only installed after the tunnel spawn at
lines 185-186. -/
theorem interrupt_readiness_unhandled_cex :
    afterServerSpawn Phase.readinessWait = true ∧
    interruptRunsCleanup Phase.readinessWait = false := by
  decide

/-- C2 amended: an external interrupt triggers the cleanup shutdown sequence
exactly when it arrives during output scanning or the steady-state
forwarding loop, the phases in which the handlers installed after tunnel
spawn are active; during readiness-waiting (and any earlier phase) the
default disposition terminates the program without any shutdown sequence,
and the installed handler itself carries no one-shot guard, ending instead
in sys.exit(0). -/
theorem interrupt_handler_phases :
    ∀ ph : Phase,
      interruptRunsCleanup ph
        = (ph == Phase.scanning || ph == Phase.steadyForward) := by
  intro ph
  cases ph <;> rfl

/-- Counterexample to C8 as stated: the credential draws 12 random bytes,
not at least 16. -/
theorem credential_entropy_cex :
    password_entropy_bytes = 12 ∧
    decide (16 ≤ password_entropy_bytes) = false := by
  decide

/-- C8 amended: the credential generator returns a URL-safe token carrying
12 bytes (96 bits) of entropy, 16 base64url characters, and it is invoked
exactly once per session in the startup sequence of main. -/
theorem credential_entropy_amended :
    password_entropy_bytes = 12 ∧
    token_urlsafe_length password_entropy_bytes = 16 ∧
    mainStartupSteps.count StartupStep.generatePassword = 1 := by
  decide

end StartWorkspace
